import Mathlib

/-!
Shallow embedding of the site-builder server (an Express app exposing a
JSON-RPC 2.0 MCP endpoint, a REST endpoint, and two mock services) and
proofs of the specification claims about it.

Sources embedded:
  - src/api/services.js           : generateSite, deployToVercel
  - src/backend/index.js          : the REST createWebsite route
  - src/unnamed/part_000 (2nd doc): MCP server variant A (fetch by url)
  - src/unnamed/part_001          : MCP server variant B (fetch by id)

Modelling conventions:
  - JS values relevant to the id field are modelled by JsValue
    (undefined, null, booleans, numbers as Int, strings); JS truthiness
    is JsValue.truthy.  Fields that the code only ever destructures as
    strings are modelled as Option String (none = absent/undefined).
  - JSON documents produced by res.json are modelled by the Json
    inductive; object key order follows JS insertion order.
  - async functions that contain no throw site and call no throwing
    operation are modelled as Except String returning, always Except.ok;
    the catch branches of their callers are embedded and provably dead.
  - toLowerCase is modelled on ASCII via Char.toLower; the regex class
    backslash-s is modelled by the ASCII whitespace characters.
  - Express res.sendStatus(200) sets status 200 and sends the status
    message "OK" as the body; res.status(200).end() sends an empty body.
-/

/-- JS runtime values as far as the MCP id handling observes them. -/
inductive JsValue where
  | vUndefined
  | vNull
  | vBool (b : Bool)
  | vNum (n : Int)
  | vStr (s : String)
deriving DecidableEq

/-- JS truthiness for JsValue: undefined, null, false, 0 and "" are falsy. -/
def JsValue.truthy : JsValue → Bool
  | .vUndefined => false
  | .vNull => false
  | .vBool b => b
  | .vNum n => n != 0
  | .vStr s => s != ""

/-- JSON documents, as produced by res.json; key order is insertion order. -/
inductive Json where
  | null
  | bool (b : Bool)
  | num (n : Int)
  | str (s : String)
  | arr (elems : List Json)
  | obj (fields : List (String × Json))

/-- An HTTP response body: empty (res.end), plain text (res.sendStatus),
or a JSON document (res.json). -/
inductive Body where
  | empty
  | text (s : String)
  | json (j : Json)

/-- An HTTP response as the route handlers build it (status and body;
transport headers are modelled separately with the CORS middleware). -/
structure HttpResponse where
  status : Nat
  body : Body

/-- A response as it leaves the CORS middleware, headers included. -/
structure CorsResponse where
  status : Nat
  headers : List (String × String)
  body : Body

/-- Embedding of the JSON value of a JsValue id field. -/
def JsValue.toJson : JsValue → Json
  | .vUndefined => Json.null
  | .vNull => Json.null
  | .vBool b => Json.bool b
  | .vNum n => Json.num n
  | .vStr s => Json.str s

/-- Embedding of the JS expression (id || null) used by both response
helpers: a falsy id is replaced by null. -/
def idOrNull (id : JsValue) : Json :=
  if id.truthy then id.toJson else Json.null

/-- JS truthiness of a destructured string field (absent or "" is falsy). -/
def strTruthy : Option String → Bool
  | none => false
  | some s => s != ""

/-- JS template-literal display of a possibly undefined string value. -/
def jsDisplay : Option String → String
  | none => "undefined"
  | some s => s

/-- ASCII part of the JS regex whitespace class. -/
def isJsWhitespace (c : Char) : Bool :=
  c = ' ' || c = '\t' || c = '\n' || c = '\r' || c = '\x0b' || c = '\x0c'

/-- Embedding of the global regex replacement of whitespace runs by a
single hyphen, as a left-to-right scan; the flag records whether the
previous character was inside a whitespace run. -/
def wsReplaceAux : Bool → List Char → List Char
  | _, [] => []
  | inRun, c :: rest =>
    if isJsWhitespace c then
      (if inRun then wsReplaceAux true rest else '-' :: wsReplaceAux true rest)
    else c :: wsReplaceAux false rest

/-- Embedding of the JS call s.replace of the whitespace-run regex by a hyphen. -/
def jsWsToHyphen (s : String) : String := String.mk (wsReplaceAux false s.data)

/-- Embedding of s.toLowerCase() (ASCII). -/
def jsToLower (s : String) : String := String.mk (s.data.map Char.toLower)

/-- Does the second list start with the first one? -/
def startsWithL : List Char → List Char → Bool
  | [], _ => true
  | _ :: _, [] => false
  | a :: as, b :: bs => a == b && startsWithL as bs

/-- Does the first list occur contiguously inside the second one? -/
def occursInL (sub : List Char) : List Char → Bool
  | [] => sub.isEmpty
  | c :: rest => startsWithL sub (c :: rest) || occursInL sub rest

/-- Embedding of the JS call hay.includes(sub). -/
def jsIncludes (hay sub : String) : Bool := occursInL sub.data hay.data

/-- The string hay contains needle contiguously (claim-level statement). -/
def strContains (hay needle : String) : Prop :=
  ∃ p r : String, hay = p ++ needle ++ r

/-- Modelled from the spec side, for the refinement claim about the deploy
URL: each maximal whitespace run is replaced by a single hyphen, consuming
every whole run at once. -/
def collapseRuns : List Char → List Char
  | [] => []
  | c :: rest =>
    if isJsWhitespace c then
      '-' :: collapseRuns (rest.dropWhile isJsWhitespace)
    else c :: collapseRuns rest
termination_by l => l.length
decreasing_by
  · have h : ∀ m : List Char, (m.dropWhile isJsWhitespace).length ≤ m.length := by
      intro m
      induction m with
      | nil => simp
      | cons a as ih =>
        by_cases hp : isJsWhitespace a
        · rw [List.dropWhile_cons_of_pos hp]
          exact Nat.le_succ_of_le ih
        · rw [List.dropWhile_cons_of_neg hp]
    exact Nat.lt_succ_of_le (h rest)
  · exact Nat.lt_succ_self _

/-- The URL formula stated by the spec: https prefix, lowercased name with
each maximal whitespace run replaced by one hyphen, fixed suffix. -/
def deployUrlSpec (name : String) : String :=
  "https://" ++ String.mk (collapseRuns (jsToLower name).data) ++ ".vercel.app"

/-- The object returned by generateSite (return value field html). -/
structure SiteFiles where
  html : String
deriving DecidableEq

/-- The object returned by deployToVercel (field url). -/
structure DeployResult where
  url : String
deriving DecidableEq

/-- Fixed pieces of the HTML template literal of generateSite, split at the
interpolation points (and once more just before the background property,
which the theorems talk about). -/
def htmlPart1 : String :=
  "\n    <!DOCTYPE html>\n    <html>\n      <head>\n        <title>"

def htmlPart2 : String :=
  "</title>\n        <style>\n          body \x7b\n            font-family: Arial, sans-serif;\n            "

def htmlPart3 : String :=
  "\n            color: "

def htmlPart4 : String :=
  ";\n            text-align: center;\n            padding: 50px;\n          \x7d\n          h1 \x7b font-size: 2.5em; \x7d\n        </style>\n      </head>\n      <body>\n        <h1>Welcome to "

def htmlPart5 : String :=
  "</h1>\n        <p>This is your first auto-generated website!</p>\n      </body>\n    </html>\n  "

/-- Embedding of generateSite from src/api/services.js: builds the HTML
template literal, interpolating the site name twice and the two
theme-keyed colors; it contains no throw site, so it always succeeds. -/
def generateSite (site_name theme : String) : Except String SiteFiles :=
  Except.ok ⟨htmlPart1 ++ site_name ++ htmlPart2 ++
    ("background: " ++ (if theme = "dark" then "#111" else "#fafafa") ++ ";") ++
    htmlPart3 ++ (if theme = "dark" then "#fff" else "#111") ++
    htmlPart4 ++ site_name ++ htmlPart5⟩

/-- Embedding of deployToVercel from src/api/services.js: the files, domain
and token arguments are accepted but unused; after the mock delay the fake
URL is derived from the name alone; no throw site, so it always succeeds. -/
def deployToVercel (files : SiteFiles) (name : String)
    (domain : Option String) (token : Option String) : Except String DeployResult :=
  Except.ok ⟨"https://" ++ jsWsToHyphen (jsToLower name) ++ ".vercel.app"⟩

/-- The success text block of the createWebsite tool. -/
def createWebsiteSuccessText (url theme name : String) : String :=
  "✅ Website created successfully!\n\nSite URL: " ++ url ++
    "\nTheme: " ++ theme ++ "\nName: " ++ name

/-- The mcpServerInfo object shared by both MCP variants. -/
def mcpServerInfoJson : Json :=
  Json.obj [("name", Json.str "Neo Site Builder"),
            ("description", Json.str "Generates and deploys websites via Vercel"),
            ("version", Json.str "1.0.0")]

/-- The result object of the first switch case of the dispatcher. -/
def initResultJson : Json :=
  Json.obj [("protocolVersion", Json.str "2024-11-05"),
            ("capabilities", Json.obj [("tools", Json.obj []), ("logging", Json.obj [])]),
            ("serverInfo", mcpServerInfoJson)]

/-- The JSON body served to GET requests on the MCP route. -/
def mcpGetInfoJson : Json :=
  Json.obj [("name", Json.str "Neo Site Builder"),
            ("description", Json.str "Generates and deploys websites via Vercel"),
            ("version", Json.str "1.0.0"),
            ("protocol", Json.str "MCP"),
            ("transport", Json.str "HTTP with JSON-RPC 2.0"),
            ("endpoint", Json.str "/mcp"),
            ("usage", Json.str "POST JSON-RPC 2.0 requests to this endpoint")]

/-- Schema of the search tool (identical in both variants). -/
def searchToolJson : Json :=
  Json.obj [("name", Json.str "search"),
            ("description", Json.str "Search for website templates and themes"),
            ("inputSchema", Json.obj
              [("type", Json.str "object"),
               ("properties", Json.obj
                 [("query", Json.obj
                   [("type", Json.str "string"),
                    ("description", Json.str "Search query for website templates or themes")])]),
               ("required", Json.arr [Json.str "query"])])]

/-- Schema of the createWebsite tool (identical in both variants). -/
def createWebsiteToolJson : Json :=
  Json.obj [("name", Json.str "createWebsite"),
            ("description", Json.str "Creates and deploys a website with the given name, theme, and domain"),
            ("inputSchema", Json.obj
              [("type", Json.str "object"),
               ("properties", Json.obj
                 [("site_name", Json.obj
                   [("type", Json.str "string"),
                    ("description", Json.str "The name of the website to create")]),
                  ("theme", Json.obj
                   [("type", Json.str "string"),
                    ("enum", Json.arr [Json.str "light", Json.str "dark"]),
                    ("description", Json.str "The theme for the website (light or dark)")]),
                  ("domain", Json.obj
                   [("type", Json.str "string"),
                    ("description", Json.str "Optional custom domain for the website")])]),
               ("required", Json.arr [Json.str "site_name", Json.str "theme"])])]

/-- Tool list of variant A (src/unnamed/part_000): fetch takes a url. -/
def mcpToolsJson_000 : Json :=
  Json.arr [searchToolJson,
    Json.obj [("name", Json.str "fetch"),
              ("description", Json.str "Fetch details about a specific website template or deployment"),
              ("inputSchema", Json.obj
                [("type", Json.str "object"),
                 ("properties", Json.obj
                   [("url", Json.obj
                     [("type", Json.str "string"),
                      ("description", Json.str "URL or ID to fetch details from")])]),
                 ("required", Json.arr [Json.str "url"])])],
    createWebsiteToolJson]

/-- Tool list of variant B (src/unnamed/part_001): fetch takes an id. -/
def mcpToolsJson_001 : Json :=
  Json.arr [searchToolJson,
    Json.obj [("name", Json.str "fetch"),
              ("description", Json.str "Fetch complete details about a specific website template by ID"),
              ("inputSchema", Json.obj
                [("type", Json.str "object"),
                 ("properties", Json.obj
                   [("id", Json.obj
                     [("type", Json.str "string"),
                      ("description", Json.str "Template ID to fetch details for (e.g., template-1, template-2, template-3)")])]),
                 ("required", Json.arr [Json.str "id"])])],
    createWebsiteToolJson]

/-- Arguments object of a tools/call request, destructured as the code does. -/
structure ToolArgs where
  query : Option String := none
  id : Option String := none
  url : Option String := none
  site_name : Option String := none
  theme : Option String := none
  domain : Option String := none

/-- The params object of a JSON-RPC request. -/
structure McpParams where
  name : Option String := none
  arguments : Option ToolArgs := none

/-- The parsed JSON-RPC request body (jsonrpc field is never inspected). -/
structure McpRequest where
  method : Option String := none
  params : Option McpParams := none
  id : JsValue := JsValue.vUndefined

/-- Embedding of the jsonRpcResponse helper closed over the request id:
res.json of a result envelope whose id field is (id || null). -/
def jsonRpcResponse (id : JsValue) (result : Json) : HttpResponse :=
  ⟨200, Body.json (Json.obj [("jsonrpc", Json.str "2.0"),
                             ("id", idOrNull id),
                             ("result", result)])⟩

/-- Embedding of the jsonRpcError helper closed over the request id. -/
def jsonRpcError (id : JsValue) (code : Int) (message : String) : HttpResponse :=
  ⟨200, Body.json (Json.obj [("jsonrpc", Json.str "2.0"),
                             ("id", idOrNull id),
                             ("error", Json.obj [("code", Json.num code),
                                                 ("message", Json.str message)])])⟩

/-- Embedding of the notification check: the JS condition (!id && id !== 0). -/
def isRpcNotification (id : JsValue) : Bool :=
  !id.truthy && !(id == JsValue.vNum 0)

/-- A template record of the search branch of variant A. -/
structure Template0 where
  name : String
  theme : String
  description : String

/-- The static template list of the search branch of variant A. -/
def templates_000 : List Template0 :=
  [⟨"Modern Portfolio", "dark", "A sleek dark-themed portfolio site"⟩,
   ⟨"Business Landing", "light", "Professional light business page"⟩,
   ⟨"Personal Blog", "light", "Simple blog template"⟩]

/-- A template record of the search branch of variant B. -/
structure Template1 where
  id : String
  name : String
  theme : String
  description : String

/-- The static template list of the search branch of variant B. -/
def templates_001 : List Template1 :=
  [⟨"template-1", "Modern Portfolio", "dark",
    "A sleek dark-themed portfolio site with modern animations"⟩,
   ⟨"template-2", "Business Landing", "light",
    "Professional light business page with call-to-action sections"⟩,
   ⟨"template-3", "Personal Blog", "light",
    "Simple and clean blog template for personal content"⟩]

/-- The filter predicate of both search branches: case-insensitive
substring match of the query against name, description and theme. -/
def searchMatches (name theme description query : String) : Bool :=
  jsIncludes (jsToLower name) (jsToLower query) ||
  jsIncludes (jsToLower description) (jsToLower query) ||
  jsIncludes (jsToLower theme) (jsToLower query)

/-- One mapped search result of variant B. -/
structure SearchResult where
  id : String
  title : String
  text : String
  url : String

/-- JSON string escaping of one character (superset of what the static
template data needs). -/
def jsonEscChar (c : Char) : String :=
  if c = '"' then "\\\""
  else if c = '\\' then "\\\\"
  else if c = '\n' then "\\n"
  else if c = '\t' then "\\t"
  else if c = '\r' then "\\r"
  else String.singleton c

/-- JSON string literal for s, as JSON.stringify would print it. -/
def jsonQuote (s : String) : String :=
  "\"" ++ String.join (s.data.map jsonEscChar) ++ "\""

/-- JSON.stringify of one search result object of variant B. -/
def stringifySearchResult (r : SearchResult) : String :=
  "\x7b\"id\":" ++ jsonQuote r.id ++ ",\"title\":" ++ jsonQuote r.title ++
    ",\"text\":" ++ jsonQuote r.text ++ ",\"url\":" ++ jsonQuote r.url ++ "\x7d"

/-- JSON.stringify of the results envelope of variant B. -/
def stringifyResults (rs : List SearchResult) : String :=
  "\x7b\"results\":[" ++ String.intercalate "," (rs.map stringifySearchResult) ++ "]\x7d"

/-- A template database record of the fetch branch of variant B. -/
structure TemplateRecord where
  id : String
  title : String
  text : String
  url : String
  metaTheme : String
  metaType : String

/-- JSON.stringify of a template database record, metadata included. -/
def stringifyTemplateRecord (t : TemplateRecord) : String :=
  "\x7b\"id\":" ++ jsonQuote t.id ++ ",\"title\":" ++ jsonQuote t.title ++
    ",\"text\":" ++ jsonQuote t.text ++ ",\"url\":" ++ jsonQuote t.url ++
    ",\"metadata\":\x7b\"theme\":" ++ jsonQuote t.metaTheme ++
    ",\"type\":" ++ jsonQuote t.metaType ++ "\x7d\x7d"

/-- The template database of the fetch branch of variant B, as a key lookup
over the three object properties. -/
def templateDb_001 (key : String) : Option TemplateRecord :=
  if key = "template-1" then
    some ⟨"template-1", "Modern Portfolio",
      "A sleek dark-themed portfolio site with modern animations, responsive design, and smooth scrolling. Perfect for showcasing creative work, photography, or design projects. Features include: hero section with animated background, project gallery with hover effects, about section, contact form, and social media integration.",
      "https://kavyavarma19-tir8.vercel.app/templates/template-1", "dark", "portfolio"⟩
  else if key = "template-2" then
    some ⟨"template-2", "Business Landing",
      "Professional light business page with call-to-action sections, testimonials, and pricing tables. Ideal for startups, SaaS products, or service businesses. Includes: compelling hero with CTA buttons, feature showcase grid, customer testimonials carousel, pricing comparison table, FAQ section, and newsletter signup.",
      "https://kavyavarma19-tir8.vercel.app/templates/template-2", "light", "business"⟩
  else if key = "template-3" then
    some ⟨"template-3", "Personal Blog",
      "Simple and clean blog template for personal content, articles, and stories. Minimalist design focused on readability and content. Features: clean typography, article cards with featured images, categories and tags, author bio section, search functionality, and RSS feed support.",
      "https://kavyavarma19-tir8.vercel.app/templates/template-3", "light", "blog"⟩
  else none

/-- A content result envelope with a single text block. -/
def contentTextResult (text : String) : Json :=
  Json.obj [("content", Json.arr
    [Json.obj [("type", Json.str "text"), ("text", Json.str text)]])]

/-- Embedding of the search branch of variant A: requires a truthy query,
filters the static templates, and summarizes matches in one text block. -/
def searchTool_000 (toolArgs : Option ToolArgs) (rpcId : JsValue) : HttpResponse :=
  let query := toolArgs.bind ToolArgs.query
  if !(strTruthy query) then
    jsonRpcError rpcId (-32602) "Missing required parameter: query"
  else
    let q := query.getD ""
    let results := templates_000.filter fun t =>
      searchMatches t.name t.theme t.description q
    jsonRpcResponse rpcId (contentTextResult
      ("Found " ++ toString results.length ++ " template(s) matching \"" ++ q ++ "\":\n\n" ++
        String.intercalate "\n"
          (results.map fun t => "• " ++ t.name ++ " (" ++ t.theme ++ "): " ++ t.description)))

/-- Embedding of the fetch branch of variant A: requires a truthy url and
returns a fixed text block echoing it. -/
def fetchTool_000 (toolArgs : Option ToolArgs) (rpcId : JsValue) : HttpResponse :=
  let url := toolArgs.bind ToolArgs.url
  if !(strTruthy url) then
    jsonRpcError rpcId (-32602) "Missing required parameter: url"
  else
    jsonRpcResponse rpcId (contentTextResult
      ("Fetched details for: " ++ url.getD "" ++
        "\n\nThis endpoint creates and deploys websites to Vercel.\nAvailable themes: light, dark\nDeployment status: Active"))

/-- Embedding of the search branch of variant B: filters the static
templates and serializes the mapped results with JSON.stringify. -/
def searchTool_001 (toolArgs : Option ToolArgs) (rpcId : JsValue) : HttpResponse :=
  let query := toolArgs.bind ToolArgs.query
  if !(strTruthy query) then
    jsonRpcError rpcId (-32602) "Missing required parameter: query"
  else
    let q := query.getD ""
    let results := (templates_001.filter fun t =>
        searchMatches t.name t.theme t.description q).map fun t =>
      SearchResult.mk t.id t.name t.description
        ("https://kavyavarma19-tir8.vercel.app/templates/" ++ t.id)
    jsonRpcResponse rpcId (contentTextResult (stringifyResults results))

/-- Embedding of the fetch branch of variant B: requires a truthy id,
looks the template up, and serializes it (or errors when not found). -/
def fetchTool_001 (toolArgs : Option ToolArgs) (rpcId : JsValue) : HttpResponse :=
  let tid := toolArgs.bind ToolArgs.id
  if !(strTruthy tid) then
    jsonRpcError rpcId (-32602) "Missing required parameter: id"
  else
    let key := tid.getD ""
    match templateDb_001 key with
    | none => jsonRpcError rpcId (-32602) ("Template not found: " ++ key)
    | some t => jsonRpcResponse rpcId (contentTextResult (stringifyTemplateRecord t))

/-- Embedding of the createWebsite branch (identical in both variants):
requires truthy site_name and theme, runs the generator then the deploy
stub, and reports the URL, theme and name in one text block; a rejection
of either service is caught and surfaced as error -32603. -/
def createWebsiteTool (toolArgs : Option ToolArgs) (rpcId : JsValue)
    (vercelToken : Option String) : HttpResponse :=
  let site_name := toolArgs.bind ToolArgs.site_name
  let theme := toolArgs.bind ToolArgs.theme
  let domain := toolArgs.bind ToolArgs.domain
  if !(strTruthy site_name) || !(strTruthy theme) then
    jsonRpcError rpcId (-32602) "Missing required parameters: site_name and theme"
  else
    let sn := site_name.getD ""
    let th := theme.getD ""
    match generateSite sn th with
    | Except.error e => jsonRpcError rpcId (-32603) ("Failed to create website: " ++ e)
    | Except.ok files =>
      match deployToVercel files sn domain vercelToken with
      | Except.error e => jsonRpcError rpcId (-32603) ("Failed to create website: " ++ e)
      | Except.ok dr =>
        jsonRpcResponse rpcId (contentTextResult (createWebsiteSuccessText dr.url th sn))

/-- Embedding of the tools/call case of variant A: routes on params.name
and falls through to the unknown-tool error. -/
def toolsCall_000 (params : Option McpParams) (rpcId : JsValue)
    (vercelToken : Option String) : HttpResponse :=
  let toolName := params.bind McpParams.name
  let toolArgs := params.bind McpParams.arguments
  if toolName = some "search" then searchTool_000 toolArgs rpcId
  else if toolName = some "fetch" then fetchTool_000 toolArgs rpcId
  else if toolName = some "createWebsite" then createWebsiteTool toolArgs rpcId vercelToken
  else jsonRpcError rpcId (-32601) ("Unknown tool: " ++ jsDisplay toolName)

/-- Embedding of the tools/call case of variant B. -/
def toolsCall_001 (params : Option McpParams) (rpcId : JsValue)
    (vercelToken : Option String) : HttpResponse :=
  let toolName := params.bind McpParams.name
  let toolArgs := params.bind McpParams.arguments
  if toolName = some "search" then searchTool_001 toolArgs rpcId
  else if toolName = some "fetch" then fetchTool_001 toolArgs rpcId
  else if toolName = some "createWebsite" then createWebsiteTool toolArgs rpcId vercelToken
  else jsonRpcError rpcId (-32601) ("Unknown tool: " ++ jsDisplay toolName)

/-- Embedding of the app.all MCP route of variant A (src/unnamed/part_000):
GET gets discovery info; otherwise a falsy non-zero id is a notification
answered by an empty 200 before any method dispatch; then the method
switch with its five cases and the method-not-found default. -/
def mcpHandler_000 (httpMethod : String) (req : McpRequest)
    (vercelToken : Option String) : HttpResponse :=
  if httpMethod = "GET" then ⟨200, Body.json mcpGetInfoJson⟩
  else if isRpcNotification req.id then ⟨200, Body.empty⟩
  else if req.method = some "initialize" then jsonRpcResponse req.id initResultJson
  else if req.method = some "initialized" then ⟨200, Body.empty⟩
  else if req.method = some "tools/list" then
    jsonRpcResponse req.id (Json.obj [("tools", mcpToolsJson_000)])
  else if req.method = some "ping" then
    jsonRpcResponse req.id (Json.obj [("status", Json.str "ok")])
  else if req.method = some "tools/call" then toolsCall_000 req.params req.id vercelToken
  else jsonRpcError req.id (-32601) ("Method not found: " ++ jsDisplay req.method)

/-- Embedding of the app.all MCP route of variant B (src/unnamed/part_001);
same routing, different search and fetch branch contents. -/
def mcpHandler_001 (httpMethod : String) (req : McpRequest)
    (vercelToken : Option String) : HttpResponse :=
  if httpMethod = "GET" then ⟨200, Body.json mcpGetInfoJson⟩
  else if isRpcNotification req.id then ⟨200, Body.empty⟩
  else if req.method = some "initialize" then jsonRpcResponse req.id initResultJson
  else if req.method = some "initialized" then ⟨200, Body.empty⟩
  else if req.method = some "tools/list" then
    jsonRpcResponse req.id (Json.obj [("tools", mcpToolsJson_001)])
  else if req.method = some "ping" then
    jsonRpcResponse req.id (Json.obj [("status", Json.str "ok")])
  else if req.method = some "tools/call" then toolsCall_001 req.params req.id vercelToken
  else jsonRpcError req.id (-32601) ("Method not found: " ++ jsDisplay req.method)

/-- The parsed body of a POST /api/createWebsite request. -/
structure CreateBody where
  site_name : Option String := none
  theme : Option String := none
  domain : Option String := none

/-- Embedding of the POST /api/createWebsite route (identical in
src/backend/index.js and both MCP variants): 400 when site_name or theme
is falsy, otherwise generator then deploy stub, each with its own catch
mapped to a 500 response, then the success envelope. -/
def createWebsiteRest (body : CreateBody) (vercelToken : Option String) : HttpResponse :=
  if !(strTruthy body.site_name) || !(strTruthy body.theme) then
    ⟨400, Body.json (Json.obj [("success", Json.bool false),
                               ("message", Json.str "Missing site_name or theme")])⟩
  else
    let sn := body.site_name.getD ""
    let th := body.theme.getD ""
    match generateSite sn th with
    | Except.error e =>
      ⟨500, Body.json (Json.obj [("success", Json.bool false),
                                 ("message", Json.str "Site generation failed"),
                                 ("error", Json.str e)])⟩
    | Except.ok files =>
      match deployToVercel files sn body.domain vercelToken with
      | Except.error e =>
        ⟨500, Body.json (Json.obj [("success", Json.bool false),
                                   ("message", Json.str "Vercel deployment failed"),
                                   ("error", Json.str e)])⟩
      | Except.ok dr =>
        ⟨200, Body.json (Json.obj [("success", Json.bool true),
                                   ("siteUrl", Json.str dr.url)])⟩

/-- The three headers set by the CORS middleware. -/
def corsHeaderFields : List (String × String) :=
  [("Access-Control-Allow-Origin", "*"),
   ("Access-Control-Allow-Methods", "GET, POST, OPTIONS"),
   ("Access-Control-Allow-Headers", "Content-Type, Authorization")]

/-- Embedding of the CORS middleware of the MCP variants: it sets the
three headers on every request, answers OPTIONS immediately with
res.sendStatus(200) (status 200, body the status message "OK"), and
otherwise passes control to the route, whose response keeps the headers. -/
def corsMiddleware (reqMethod : String) (route : HttpResponse) : CorsResponse :=
  if reqMethod = "OPTIONS" then ⟨200, corsHeaderFields, Body.text "OK"⟩
  else ⟨route.status, corsHeaderFields, route.body⟩

/-- A JSON document that is a JSON-RPC envelope carrying a result or an
error object (claim-level shape predicate). -/
def rpcResultOrError (j : Json) : Prop :=
  (∃ i r, j = Json.obj [("jsonrpc", Json.str "2.0"), ("id", i), ("result", r)]) ∨
  (∃ i c m, j = Json.obj [("jsonrpc", Json.str "2.0"), ("id", i),
    ("error", Json.obj [("code", Json.num c), ("message", Json.str m)])])

theorem dropWhile_ws_length_le (l : List Char) :
    (l.dropWhile isJsWhitespace).length ≤ l.length := by
  induction l with
  | nil => simp
  | cons a as ih =>
    by_cases hp : isJsWhitespace a
    · rw [List.dropWhile_cons_of_pos hp]
      exact Nat.le_succ_of_le ih
    · rw [List.dropWhile_cons_of_neg hp]

theorem wsReplaceAux_true_drop (l : List Char) :
    wsReplaceAux true l = wsReplaceAux false (l.dropWhile isJsWhitespace) := by
  induction l with
  | nil => rfl
  | cons c rest ih =>
    by_cases h : isJsWhitespace c
    · rw [List.dropWhile_cons_of_pos h]
      simpa [wsReplaceAux, h] using ih
    · rw [List.dropWhile_cons_of_neg h]
      simp [wsReplaceAux, h]

theorem wsReplace_eq_collapse_aux :
    ∀ (n : Nat) (l : List Char), l.length ≤ n → wsReplaceAux false l = collapseRuns l := by
  intro n
  induction n with
  | zero =>
    intro l hl
    have hnil : l = [] := List.eq_nil_of_length_eq_zero (Nat.le_zero.mp hl)
    subst hnil
    rw [collapseRuns, wsReplaceAux]
  | succ n ih =>
    intro l hl
    cases l with
    | nil => rw [collapseRuns, wsReplaceAux]
    | cons c rest =>
      have hr : rest.length ≤ n := Nat.le_of_succ_le_succ hl
      by_cases h : isJsWhitespace c
      · rw [collapseRuns]
        simp only [wsReplaceAux, h, if_pos]
        rw [wsReplaceAux_true_drop]
        rw [ih _ (Nat.le_trans (dropWhile_ws_length_le _) hr)]
        simp [h]
      · rw [collapseRuns]
        simp only [wsReplaceAux, h]
        rw [ih _ hr]
        simp [h]

theorem wsReplace_eq_collapse (l : List Char) :
    wsReplaceAux false l = collapseRuns l :=
  wsReplace_eq_collapse_aux l.length l (Nat.le_refl _)

/-- C4: deployToVercel is deterministic in the site name and its URL equals
the fixed formula: https prefix, then the lowercased name with every
maximal whitespace run replaced by a single hyphen, then the fixed
.vercel.app suffix; the files, domain and token arguments never influence
the result, so two calls with the same name always agree. -/
theorem deployToVercel_deterministic_formula
    (files : SiteFiles) (name : String) (domain token : Option String) :
    deployToVercel files name domain token = Except.ok ⟨deployUrlSpec name⟩ ∧
    ∀ (files2 : SiteFiles) (domain2 token2 : Option String),
      deployToVercel files2 name domain2 token2 = deployToVercel files name domain token := by
  constructor
  · show Except.ok _ = Except.ok _
    rw [deployUrlSpec, jsWsToHyphen, wsReplace_eq_collapse]
  · intro files2 domain2 token2
    rfl

/-- C5: generateSite always succeeds, its HTML document contains the site
name verbatim twice (title and body heading), and the body background is
the dark palette color when the theme is "dark" and the light palette
color for every other theme value. -/
theorem generateSite_contains_name_and_palette (site_name theme : String) :
    ∃ files : SiteFiles, generateSite site_name theme = Except.ok files ∧
      (∃ p q r : String, files.html = p ++ site_name ++ q ++ site_name ++ r) ∧
      (theme = "dark" → ∃ p r : String, files.html = p ++ "background: #111;" ++ r) ∧
      (theme ≠ "dark" → ∃ p r : String, files.html = p ++ "background: #fafafa;" ++ r) := by
  refine ⟨_, rfl, ?_, ?_, ?_⟩
  · refine ⟨htmlPart1,
      htmlPart2 ++ ("background: " ++ (if theme = "dark" then "#111" else "#fafafa") ++ ";") ++
        htmlPart3 ++ (if theme = "dark" then "#fff" else "#111") ++ htmlPart4,
      htmlPart5, ?_⟩
    simp [String.append_assoc]
  · intro h
    subst h
    refine ⟨htmlPart1 ++ site_name ++ htmlPart2,
      htmlPart3 ++ "#fff" ++ htmlPart4 ++ site_name ++ htmlPart5, ?_⟩
    simp [String.append_assoc]
  · intro h
    refine ⟨htmlPart1 ++ site_name ++ htmlPart2,
      htmlPart3 ++ "#111" ++ htmlPart4 ++ site_name ++ htmlPart5, ?_⟩
    simp [h, String.append_assoc]

/-- Witness for C5 at a concrete dark input and a concrete non-dark input. -/
theorem generateSite_contains_name_and_palette_witness :
    (∃ files : SiteFiles, generateSite "My Site" "dark" = Except.ok files ∧
      ∃ p r : String, files.html = p ++ "background: #111;" ++ r) ∧
    (∃ files : SiteFiles, generateSite "My Site" "blue" = Except.ok files ∧
      ∃ p r : String, files.html = p ++ "background: #fafafa;" ++ r) := by
  constructor
  · obtain ⟨files, hok, hname, hdark, hlight⟩ :=
      generateSite_contains_name_and_palette "My Site" "dark"
    exact ⟨files, hok, hdark rfl⟩
  · obtain ⟨files, hok, hname, hdark, hlight⟩ :=
      generateSite_contains_name_and_palette "My Site" "blue"
    exact ⟨files, hok, hlight (by decide)⟩

/-- C3: a JSON-RPC POST with no id field at all, whatever the method, is a
notification: both server variants answer HTTP 200 with an empty body,
before the method switch is ever reached. -/
theorem mcp_no_id_empty_200 (method : Option String) (params : Option McpParams)
    (tok : Option String) :
    mcpHandler_001 "POST" ⟨method, params, JsValue.vUndefined⟩ tok = ⟨200, Body.empty⟩ ∧
    mcpHandler_000 "POST" ⟨method, params, JsValue.vUndefined⟩ tok = ⟨200, Body.empty⟩ :=
  ⟨rfl, rfl⟩

/-- C10: an id that is present but falsy and not the number 0 (null, false,
the empty string) makes the notification check fire: both variants answer
HTTP 200 with an empty body without ever examining the method. -/
theorem mcp_falsy_nonzero_id_notification (id : JsValue)
    (h1 : id.truthy = false) (h2 : id ≠ JsValue.vNum 0)
    (method : Option String) (params : Option McpParams) (tok : Option String) :
    mcpHandler_001 "POST" ⟨method, params, id⟩ tok = ⟨200, Body.empty⟩ ∧
    mcpHandler_000 "POST" ⟨method, params, id⟩ tok = ⟨200, Body.empty⟩ := by
  have hn : isRpcNotification id = true := by
    simp [isRpcNotification, h1, h2]
  constructor
  · rw [mcpHandler_001, if_neg (by decide : ¬ ("POST" : String) = "GET"), if_pos hn]
  · rw [mcpHandler_000, if_neg (by decide : ¬ ("POST" : String) = "GET"), if_pos hn]

/-- Witness for C10 at the ids "", null and false. -/
theorem mcp_falsy_nonzero_id_notification_witness :
    mcpHandler_001 "POST" ⟨some "tools/list", none, JsValue.vStr ""⟩ none = ⟨200, Body.empty⟩ ∧
    mcpHandler_001 "POST" ⟨some "ping", none, JsValue.vNull⟩ none = ⟨200, Body.empty⟩ ∧
    mcpHandler_000 "POST" ⟨some "nonsense", none, JsValue.vBool false⟩ none = ⟨200, Body.empty⟩ :=
  ⟨(mcp_falsy_nonzero_id_notification (JsValue.vStr "") rfl (by decide)
      (some "tools/list") none none).1,
   (mcp_falsy_nonzero_id_notification JsValue.vNull rfl (by decide)
      (some "ping") none none).1,
   (mcp_falsy_nonzero_id_notification (JsValue.vBool false) rfl (by decide)
      (some "nonsense") none none).2⟩

/-- C1: evaluation at the failing input. The request with id 0 and method
ping is answered with a full JSON-RPC result, but the response id is null,
not 0: the helper expression (id || null) maps the falsy number 0 to null,
although the notification check just above deliberately treats 0 as a
present id. -/
theorem mcp_id_zero_response_id_is_null :
    mcpHandler_001 "POST" ⟨some "ping", none, JsValue.vNum 0⟩ none =
      ⟨200, Body.json (Json.obj [("jsonrpc", Json.str "2.0"), ("id", Json.null),
        ("result", Json.obj [("status", Json.str "ok")])])⟩ ∧
    Json.null ≠ (JsValue.vNum 0).toJson := by
  refine ⟨rfl, ?_⟩
  intro h
  rw [JsValue.toJson] at h
  exact Json.noConfusion h

/-- C2 counterexample: the method initialized with id 0 is answered with an
empty 200 body by its own switch case, so not every request with id 0
produces a JSON-RPC response body. -/
theorem mcp_initialized_id_zero_empty_body :
    mcpHandler_001 "POST" ⟨some "initialized", none, JsValue.vNum 0⟩ none = ⟨200, Body.empty⟩ ∧
    ∀ j : Json,
      (mcpHandler_001 "POST" ⟨some "initialized", none, JsValue.vNum 0⟩ none).body ≠
        Body.json j := by
  refine ⟨rfl, ?_⟩
  intro j h
  exact Body.noConfusion h

theorem jsonRpcResponse_shape (id : JsValue) (r : Json) :
    ∃ j, (jsonRpcResponse id r).body = Body.json j ∧ rpcResultOrError j :=
  ⟨_, rfl, Or.inl ⟨_, _, rfl⟩⟩

theorem jsonRpcError_shape (id : JsValue) (c : Int) (m : String) :
    ∃ j, (jsonRpcError id c m).body = Body.json j ∧ rpcResultOrError j :=
  ⟨_, rfl, Or.inr ⟨_, _, _, rfl⟩⟩

theorem searchTool_001_shape (args : Option ToolArgs) (rpcId : JsValue) :
    ∃ j, (searchTool_001 args rpcId).body = Body.json j ∧ rpcResultOrError j := by
  simp only [searchTool_001]
  split
  · exact jsonRpcError_shape ..
  · exact jsonRpcResponse_shape ..

theorem fetchTool_001_shape (args : Option ToolArgs) (rpcId : JsValue) :
    ∃ j, (fetchTool_001 args rpcId).body = Body.json j ∧ rpcResultOrError j := by
  simp only [fetchTool_001]
  split
  · exact jsonRpcError_shape ..
  · split
    · exact jsonRpcError_shape ..
    · exact jsonRpcResponse_shape ..

theorem createWebsiteTool_shape (args : Option ToolArgs) (rpcId : JsValue)
    (tok : Option String) :
    ∃ j, (createWebsiteTool args rpcId tok).body = Body.json j ∧ rpcResultOrError j := by
  simp only [createWebsiteTool]
  split
  · exact jsonRpcError_shape ..
  · split
    · exact jsonRpcError_shape ..
    · split
      · exact jsonRpcError_shape ..
      · exact jsonRpcResponse_shape ..

theorem toolsCall_001_shape (params : Option McpParams) (rpcId : JsValue)
    (tok : Option String) :
    ∃ j, (toolsCall_001 params rpcId tok).body = Body.json j ∧ rpcResultOrError j := by
  simp only [toolsCall_001]
  split
  · exact searchTool_001_shape ..
  · split
    · exact fetchTool_001_shape ..
    · split
      · exact createWebsiteTool_shape ..
      · exact jsonRpcError_shape ..

theorem mcpHandler_001_post_answers (req : McpRequest) (tok : Option String)
    (hn : isRpcNotification req.id = false) (hm : req.method ≠ some "initialized") :
    ∃ j, (mcpHandler_001 "POST" req tok).body = Body.json j ∧ rpcResultOrError j := by
  rw [mcpHandler_001, if_neg (by decide : ¬ ("POST" : String) = "GET"),
    if_neg (by simp [hn])]
  by_cases h1 : req.method = some "initialize"
  · rw [if_pos h1]; exact jsonRpcResponse_shape ..
  · rw [if_neg h1, if_neg hm]
    by_cases h2 : req.method = some "tools/list"
    · rw [if_pos h2]; exact jsonRpcResponse_shape ..
    · rw [if_neg h2]
      by_cases h3 : req.method = some "ping"
      · rw [if_pos h3]; exact jsonRpcResponse_shape ..
      · rw [if_neg h3]
        by_cases h4 : req.method = some "tools/call"
        · rw [if_pos h4]; exact toolsCall_001_shape ..
        · rw [if_neg h4]; exact jsonRpcError_shape ..

/-- C2 (amended): a request with id 0 is not treated as a notification;
for every method other than initialized the server produces a full
JSON-RPC response body (a result or an error object). The initialized
case answers HTTP 200 empty through its own switch case. -/
theorem mcp_id_zero_answers (method : Option String) (params : Option McpParams)
    (tok : Option String) (hm : method ≠ some "initialized") :
    ∃ j, (mcpHandler_001 "POST" ⟨method, params, JsValue.vNum 0⟩ tok).body = Body.json j ∧
      rpcResultOrError j :=
  mcpHandler_001_post_answers ⟨method, params, JsValue.vNum 0⟩ tok
    (show isRpcNotification (JsValue.vNum 0) = false from by decide) hm

/-- Witness for C2 at the method ping with id 0. -/
theorem mcp_id_zero_answers_witness :
    ∃ j, (mcpHandler_001 "POST" ⟨some "ping", none, JsValue.vNum 0⟩ none).body = Body.json j ∧
      rpcResultOrError j :=
  mcp_id_zero_answers (some "ping") none none (by decide)

/-- C6: the end-to-end tools/call of createWebsite with id 1, site name
"My Site" and theme "dark" returns a JSON-RPC result whose single text
block contains the deterministic URL, the theme and the name. -/
theorem mcp_createWebsite_end_to_end :
    mcpHandler_001 "POST" ⟨some "tools/call",
        some ⟨some "createWebsite", some { site_name := some "My Site", theme := some "dark" }⟩,
        JsValue.vNum 1⟩ none =
      ⟨200, Body.json (Json.obj [("jsonrpc", Json.str "2.0"), ("id", Json.num 1),
        ("result", contentTextResult
          (createWebsiteSuccessText "https://my-site.vercel.app" "dark" "My Site"))])⟩ ∧
    strContains (createWebsiteSuccessText "https://my-site.vercel.app" "dark" "My Site")
      "https://my-site.vercel.app" ∧
    strContains (createWebsiteSuccessText "https://my-site.vercel.app" "dark" "My Site")
      "dark" ∧
    strContains (createWebsiteSuccessText "https://my-site.vercel.app" "dark" "My Site")
      "My Site" := by
  refine ⟨rfl,
    ⟨"✅ Website created successfully!\n\nSite URL: ",
     "\nTheme: dark\nName: My Site", ?_⟩,
    ⟨"✅ Website created successfully!\n\nSite URL: https://my-site.vercel.app\nTheme: ",
     "\nName: My Site", ?_⟩,
    ⟨"✅ Website created successfully!\n\nSite URL: https://my-site.vercel.app\nTheme: dark\nName: ",
     "", ?_⟩⟩ <;> rfl

/-- C7: for every request whose id counts as present (truthy, or the
number 0), a tools/call naming an unknown tool is answered with error
-32601 "Unknown tool: ...", and a request naming an unknown method is
answered with error -32601 "Method not found: ...". -/
theorem mcp_unknown_tool_and_method (rpcId : JsValue)
    (hid : rpcId.truthy = true ∨ rpcId = JsValue.vNum 0) :
    (∀ tn : String, tn ∉ (["search", "fetch", "createWebsite"] : List String) →
      ∀ (args : Option ToolArgs) (tok : Option String),
        mcpHandler_001 "POST" ⟨some "tools/call", some ⟨some tn, args⟩, rpcId⟩ tok =
          jsonRpcError rpcId (-32601) ("Unknown tool: " ++ tn)) ∧
    (∀ m : String,
      m ∉ (["initialize", "initialized", "tools/list", "ping", "tools/call"] : List String) →
      ∀ (params : Option McpParams) (tok : Option String),
        mcpHandler_001 "POST" ⟨some m, params, rpcId⟩ tok =
          jsonRpcError rpcId (-32601) ("Method not found: " ++ m)) := by
  have hn : isRpcNotification rpcId = false := by
    rcases hid with h | h
    · simp [isRpcNotification, h]
    · subst h; decide
  constructor
  · intro tn htn args tok
    have t1 : tn ≠ "search" := fun h => htn (by simp [h])
    have t2 : tn ≠ "fetch" := fun h => htn (by simp [h])
    have t3 : tn ≠ "createWebsite" := fun h => htn (by simp [h])
    rw [mcpHandler_001, if_neg (by decide : ¬ ("POST" : String) = "GET"),
      if_neg (by simp [hn]),
      if_neg (by decide : ¬ (some "tools/call" : Option String) = some "initialize"),
      if_neg (by decide : ¬ (some "tools/call" : Option String) = some "initialized"),
      if_neg (by decide : ¬ (some "tools/call" : Option String) = some "tools/list"),
      if_neg (by decide : ¬ (some "tools/call" : Option String) = some "ping"),
      if_pos (rfl : (some "tools/call" : Option String) = some "tools/call")]
    show toolsCall_001 (some ⟨some tn, args⟩) rpcId tok = _
    simp only [toolsCall_001]
    rw [if_neg (by simp [t1]), if_neg (by simp [t2]), if_neg (by simp [t3])]
    rfl
  · intro m hm params tok
    have m1 : m ≠ "initialize" := fun h => hm (by simp [h])
    have m2 : m ≠ "initialized" := fun h => hm (by simp [h])
    have m3 : m ≠ "tools/list" := fun h => hm (by simp [h])
    have m4 : m ≠ "ping" := fun h => hm (by simp [h])
    have m5 : m ≠ "tools/call" := fun h => hm (by simp [h])
    rw [mcpHandler_001, if_neg (by decide : ¬ ("POST" : String) = "GET"),
      if_neg (by simp [hn]),
      if_neg (by simp [m1]), if_neg (by simp [m2]), if_neg (by simp [m3]),
      if_neg (by simp [m4]), if_neg (by simp [m5])]
    rfl

/-- Witness for C7: the tool doesNotExist with id 7, and the method bogus
with the id "abc". -/
theorem mcp_unknown_tool_and_method_witness :
    mcpHandler_001 "POST" ⟨some "tools/call", some ⟨some "doesNotExist", none⟩,
        JsValue.vNum 7⟩ none =
      jsonRpcError (JsValue.vNum 7) (-32601) ("Unknown tool: " ++ "doesNotExist") ∧
    mcpHandler_001 "POST" ⟨some "bogus", none, JsValue.vStr "abc"⟩ none =
      jsonRpcError (JsValue.vStr "abc") (-32601) ("Method not found: " ++ "bogus") :=
  ⟨(mcp_unknown_tool_and_method (JsValue.vNum 7) (Or.inl (by decide))).1
      "doesNotExist" (by decide) none none,
   (mcp_unknown_tool_and_method (JsValue.vStr "abc") (Or.inl (by decide))).2
      "bogus" (by decide) none none⟩

/-- C8 counterexample: a body whose site_name is present but the empty
string (and theme present and valid) is answered with HTTP 400, although
the claim, which keys the 400 on absence alone, requires the success
response here. -/
theorem createWebsiteRest_empty_string_400 :
    createWebsiteRest ⟨some "", some "dark", none⟩ none =
      ⟨400, Body.json (Json.obj [("success", Json.bool false),
        ("message", Json.str "Missing site_name or theme")])⟩ ∧
    (⟨some "", some "dark", none⟩ : CreateBody).site_name ≠ none ∧
    (⟨some "", some "dark", none⟩ : CreateBody).theme ≠ none ∧
    ∀ url : String, createWebsiteRest ⟨some "", some "dark", none⟩ none ≠
      ⟨200, Body.json (Json.obj [("success", Json.bool true),
        ("siteUrl", Json.str url)])⟩ := by
  refine ⟨rfl, by simp, by simp, ?_⟩
  intro url h
  have hs : (createWebsiteRest ⟨some "", some "dark", none⟩ none).status = 200 :=
    congrArg HttpResponse.status h
  exact absurd hs (by decide)

/-- C8 (amended): POST /api/createWebsite answers 400 with success false
when site_name or theme is absent or falsy (the empty string); otherwise
it runs the Site Generator, then the Deploy Stub, and answers success
true with the siteUrl produced by the stub. The 500 branches exist in
the handler but are unreachable: both services always succeed. -/
theorem createWebsiteRest_validates_then_deploys (body : CreateBody) (tok : Option String) :
    ((body.site_name = none ∨ body.site_name = some "" ∨
      body.theme = none ∨ body.theme = some "") →
      createWebsiteRest body tok =
        ⟨400, Body.json (Json.obj [("success", Json.bool false),
          ("message", Json.str "Missing site_name or theme")])⟩) ∧
    (∀ sn th : String, body.site_name = some sn → sn ≠ "" →
      body.theme = some th → th ≠ "" →
      ∃ (files : SiteFiles) (dr : DeployResult),
        generateSite sn th = Except.ok files ∧
        deployToVercel files sn body.domain tok = Except.ok dr ∧
        createWebsiteRest body tok =
          ⟨200, Body.json (Json.obj [("success", Json.bool true),
            ("siteUrl", Json.str dr.url)])⟩) := by
  obtain ⟨bsn, bth, bdom⟩ := body
  constructor
  · intro h
    have hc : (!(strTruthy bsn) || !(strTruthy bth)) = true := by
      rcases h with h | h | h | h <;> simp_all [strTruthy]
    rw [createWebsiteRest]
    rw [if_pos (by exact hc)]
  · intro sn th hsn hsne hth hthe
    simp only at hsn hth
    subst hsn
    subst hth
    refine ⟨_, _, rfl, rfl, ?_⟩
    rw [createWebsiteRest]
    rw [if_neg (by simp [strTruthy, hsne, hthe])]
    rfl

/-- Witness for C8: the empty body gets the 400 response, and the body
with site_name "My Site" and theme "dark" gets the success response. -/
theorem createWebsiteRest_validates_then_deploys_witness :
    createWebsiteRest ⟨none, none, none⟩ none =
      ⟨400, Body.json (Json.obj [("success", Json.bool false),
        ("message", Json.str "Missing site_name or theme")])⟩ ∧
    ∃ (files : SiteFiles) (dr : DeployResult),
      generateSite "My Site" "dark" = Except.ok files ∧
      deployToVercel files "My Site" none none = Except.ok dr ∧
      createWebsiteRest ⟨some "My Site", some "dark", none⟩ none =
        ⟨200, Body.json (Json.obj [("success", Json.bool true),
          ("siteUrl", Json.str dr.url)])⟩ :=
  ⟨(createWebsiteRest_validates_then_deploys ⟨none, none, none⟩ none).1 (Or.inl rfl),
   (createWebsiteRest_validates_then_deploys ⟨some "My Site", some "dark", none⟩ none).2
     "My Site" "dark" rfl (by decide) rfl (by decide)⟩

/-- C9 counterexample: an OPTIONS preflight is answered by
res.sendStatus(200), whose body is the status message "OK", not empty. -/
theorem corsMiddleware_options_body_not_empty :
    (corsMiddleware "OPTIONS" ⟨404, Body.empty⟩).body = Body.text "OK" ∧
    (corsMiddleware "OPTIONS" ⟨404, Body.empty⟩).body ≠ Body.empty := by
  refine ⟨rfl, ?_⟩
  intro h
  exact Body.noConfusion h

/-- C9 (amended): the CORS middleware stamps the three permissive headers
on every response, whatever the request method and route; an OPTIONS
request short-circuits with HTTP 200 whose body is "OK" (the status
message sent by res.sendStatus). -/
theorem corsMiddleware_headers_and_options (reqMethod : String) (route : HttpResponse) :
    (corsMiddleware reqMethod route).headers = corsHeaderFields ∧
    (reqMethod = "OPTIONS" →
      corsMiddleware reqMethod route = ⟨200, corsHeaderFields, Body.text "OK"⟩) := by
  constructor
  · rw [corsMiddleware]
    split <;> rfl
  · intro h
    rw [corsMiddleware, if_pos h]

/-- Witness for C9 at an OPTIONS request over an arbitrary route. -/
theorem corsMiddleware_headers_and_options_witness :
    (corsMiddleware "OPTIONS" ⟨404, Body.empty⟩).headers = corsHeaderFields ∧
    corsMiddleware "OPTIONS" ⟨404, Body.empty⟩ = ⟨200, corsHeaderFields, Body.text "OK"⟩ :=
  ⟨(corsMiddleware_headers_and_options "OPTIONS" ⟨404, Body.empty⟩).1,
   (corsMiddleware_headers_and_options "OPTIONS" ⟨404, Body.empty⟩).2 rfl⟩
